import Mathlib

/-!
Shallow embedding of the access-control and registration-workflow core of
the pacific-emis-teacher-registration application (Django / Python), and
proofs of the specification claims about it.

The relational state is modelled as lists of records (`DB`).  Rows carry
their surrogate primary keys as `Nat` fields where a claim needs them.
Python `None` becomes `Option`, Django querysets become list filters, and
operations that `raise` become `Except`-valued functions.  A caller that
may be anonymous (`request.user` possibly `AnonymousUser`) is modelled as
`Option User`: `none` is the unauthenticated caller, and a stored `User`
row is always authenticated (as in Django, where `User.is_authenticated`
is constantly `True` on model instances).
-/

namespace PacEmis

/-! ## Group names (core/permissions.py, module constants) -/

def GROUP_ADMINS : String := "Admins"
def GROUP_SCHOOL_ADMINS : String := "School Admins"
def GROUP_SCHOOL_STAFF : String := "School Staff"
def GROUP_TEACHERS : String := "Teachers"
def GROUP_SYSTEM_ADMINS : String := "System Admins"
def GROUP_SYSTEM_STAFF : String := "System Staff"

/-! ## Data model -/

/-- A stored identity-provider user (django.contrib.auth User): surrogate id,
superuser flag, active flag, and the names of the groups it belongs to. -/
structure User where
  id : Nat
  is_superuser : Bool
  is_active : Bool
  groups : List String
deriving Repr, DecidableEq

/-- core/models.py SchoolStaff: one-to-one with User, carrying the profile
fields that TeacherRegistration.approve copies verbatim.  Lookup foreign
keys are `Option Nat` (nullable FK by id), dates are `Option Nat`. -/
structure SchoolStaff where
  id : Nat
  user : Nat
  staff_type : String
  title : String
  date_of_birth : Option Nat
  gender : String
  gender_emis : Option Nat
  marital_status : Option Nat
  nationality : Option Nat
  national_id_number : String
  home_island : Option Nat
  phone_number : String
  phone_home : String
  residential_address : String
  nearby_school : Option Nat
  business_address : String
  teacher_payroll_number : String
  highest_qualification : String
  years_of_experience : Option Nat
  registration_status : String
  created_by : Option Nat
  last_updated_by : Option Nat
deriving Repr, DecidableEq

/-- core/models.py SystemUser: one-to-one with User (profile existence is
all the permission layer reads from it). -/
structure SystemUser where
  id : Nat
  user : Nat
deriving Repr, DecidableEq

/-- core/models.py SchoolStaffAssignment: links a SchoolStaff to a school
with a job title and an optional date window; `end_date = none` means the
assignment is currently active. -/
structure SchoolStaffAssignment where
  school_staff : Nat
  school : Nat
  job_title : Nat
  start_date : Option Nat
  end_date : Option Nat
  created_by : Option Nat
  last_updated_by : Option Nat
deriving Repr, DecidableEq

/-- teacher_registration/models.py registration workflow status
(TeacherRegistration.STATUS_CHOICES). -/
inductive Status where
  | draft
  | submitted
  | under_review
  | approved
  | rejected
deriving Repr, DecidableEq

/-- The stored string value of a status (the CharField contents). -/
def statusStr : Status → String
  | .draft => "draft"
  | .submitted => "submitted"
  | .under_review => "under_review"
  | .approved => "approved"
  | .rejected => "rejected"

/-- teacher_registration/models.py TeacherRegistration: workflow status,
the profile fields copied to SchoolStaff on approval, and the review
metadata. -/
structure TeacherRegistration where
  id : Nat
  user : Nat
  status : Status
  title : String
  date_of_birth : Option Nat
  gender : String
  gender_emis : Option Nat
  marital_status : Option Nat
  nationality : Option Nat
  national_id_number : String
  home_island : Option Nat
  phone_number : String
  phone_home : String
  residential_address : String
  nearby_school : Option Nat
  business_address : String
  teacher_payroll_number : String
  highest_qualification : String
  years_of_experience : Option Nat
  submitted_at : Option Nat
  reviewed_by : Option Nat
  reviewed_at : Option Nat
  reviewer_comments : String
  approved_staff_profile : Option Nat
deriving Repr, DecidableEq

/-- teacher_registration/models.py EducationRecord (nested under a
registration; copied to StaffEducationRecord on approval). -/
structure EducationRecord where
  id : Nat
  registration : Nat
  institution_name : String
  qualification : Nat
  program_name : String
  major : Nat
  minor : Option Nat
  completion_year : Option Nat
  duration : Option Nat
  duration_unit : String
  completed : Bool
  percentage_progress : Option Nat
  comment : String
deriving Repr, DecidableEq

/-- core/models.py StaffEducationRecord (audit copy created at approval). -/
structure StaffEducationRecord where
  school_staff : Nat
  institution_name : String
  qualification : Nat
  program_name : String
  major : Nat
  minor : Option Nat
  completion_year : Option Nat
  duration : Option Nat
  duration_unit : String
  completed : Bool
  percentage_progress : Option Nat
  comment : String
  created_by : Option Nat
  last_updated_by : Option Nat
deriving Repr, DecidableEq

/-- teacher_registration/models.py TrainingRecord (nested under a
registration; copied to StaffTrainingRecord on approval). -/
structure TrainingRecord where
  id : Nat
  registration : Nat
  provider_institution : String
  title : String
  focus : Option Nat
  format : Option Nat
  completion_year : Option Nat
  duration : Option Nat
  duration_unit : String
  effective_date : Option Nat
  expiration_date : Option Nat
deriving Repr, DecidableEq

/-- core/models.py StaffTrainingRecord (audit copy created at approval). -/
structure StaffTrainingRecord where
  school_staff : Nat
  provider_institution : String
  title : String
  focus : Option Nat
  format : Option Nat
  completion_year : Option Nat
  duration : Option Nat
  duration_unit : String
  effective_date : Option Nat
  expiration_date : Option Nat
  created_by : Option Nat
  last_updated_by : Option Nat
deriving Repr, DecidableEq

/-- teacher_registration/models.py ClaimedSchoolAppointment (the fields the
approval transducer reads when deriving a SchoolStaffAssignment). -/
structure ClaimedSchoolAppointment where
  id : Nat
  registration : Nat
  current_school : Nat
  employment_position : Nat
  start_date : Option Nat
deriving Repr, DecidableEq

/-- teacher_registration/models.py RegistrationDocument: exactly one of
`registration` / `school_staff` is meant to be non-null (the
document_single_owner check constraint). -/
structure RegistrationDocument where
  registration : Option Nat
  school_staff : Option Nat
  original_filename : String
  file_size : Nat
  doc_link_type : Nat
deriving Repr, DecidableEq

/-- teacher_registration/models.py RegistrationChangeLog (append-only
audit trail; `changed_at` is carried by the caller-supplied clock). -/
structure RegistrationChangeLog where
  registration : Nat
  field_name : String
  old_value : String
  new_value : String
  changed_by : Option Nat
  notes : String
deriving Repr, DecidableEq

/-- The relational state: one list per table, plus the Group rows of the
identity provider (by name). -/
structure DB where
  users : List User
  groups : List String
  school_staff : List SchoolStaff
  system_users : List SystemUser
  assignments : List SchoolStaffAssignment
  registrations : List TeacherRegistration
  education_records : List EducationRecord
  training_records : List TrainingRecord
  staff_education_records : List StaffEducationRecord
  staff_training_records : List StaffTrainingRecord
  claimed_appointments : List ClaimedSchoolAppointment
  documents : List RegistrationDocument
  change_logs : List RegistrationChangeLog
deriving Repr, DecidableEq

/-- Look a user row up by primary key (Django FK dereference). -/
def findUser (db : DB) (uid : Nat) : Option User :=
  db.users.find? (fun u => u.id == uid)

/-! ## Permission evaluator (core/permissions.py) -/

/-- permissions.py _in_group: anonymous callers are in no group; otherwise
membership of the named group. -/
def in_group (u : Option User) (group_name : String) : Bool :=
  match u with
  | none => false
  | some user => user.groups.contains group_name

/-- permissions.py is_admin: superuser, or member of Admins or System
Admins. -/
def is_admin (u : Option User) : Bool :=
  match u with
  | none => false
  | some user =>
    if user.is_superuser then true
    else in_group u GROUP_ADMINS || in_group u GROUP_SYSTEM_ADMINS

/-- permissions.py is_school_admin. -/
def is_school_admin (u : Option User) : Bool :=
  in_group u GROUP_SCHOOL_ADMINS

/-- permissions.py is_teacher. -/
def is_teacher (u : Option User) : Bool :=
  in_group u GROUP_TEACHERS

/-- permissions.py is_admins_group: strictly the Admins group (or
superuser). -/
def is_admins_group (u : Option User) : Bool :=
  match u with
  | none => false
  | some user =>
    if user.is_superuser then true
    else in_group u GROUP_ADMINS

/-- permissions.py has_app_access: superuser, or (profile exists and at
least one group). -/
def has_app_access (db : DB) (u : Option User) : Bool :=
  match u with
  | none => false
  | some user =>
    if user.is_superuser then true
    else
      let has_profile := db.school_staff.any (fun s => s.user == user.id)
        || db.system_users.any (fun s => s.user == user.id)
      if !has_profile then false
      else !user.groups.isEmpty

/-- permissions.py can_manage_pending_users: superuser, Admins, or System
Admins. -/
def can_manage_pending_users (u : Option User) : Bool :=
  match u with
  | none => false
  | some user =>
    if user.is_superuser then true
    else if is_admins_group u then true
    else if in_group u GROUP_SYSTEM_ADMINS then true
    else false

/-- permissions.py can_assign_admins_group: superuser or Admins member
only; System Admins are excluded. -/
def can_assign_admins_group (u : Option User) : Bool :=
  match u with
  | none => false
  | some user =>
    if user.is_superuser then true
    else if is_admins_group u then true
    else false

/-- The school-id multiset underlying the get_user_schools queryset: the
schools at which some SchoolStaff row of this user holds an assignment
with `end_date` null, with queryset distinct() applied. -/
def qsSchools (db : DB) (uid : Nat) : List Nat :=
  ((db.assignments.filter (fun a =>
      (db.school_staff.any (fun s => s.id == a.school_staff && s.user == uid))
        && a.end_date == none)).map (fun a => a.school)).dedup

/-- permissions.py get_user_schools: anonymous or profile-less users get
the empty queryset; otherwise the active-assignment schools. -/
def get_user_schools (db : DB) (u : Option User) : List Nat :=
  match u with
  | none => []
  | some user =>
    if !db.school_staff.any (fun s => s.user == user.id) then []
    else qsSchools db user.id

/-- permissions.py user_has_school_access_to_staff: admins always; others
need a non-empty intersection of active-school sets. -/
def user_has_school_access_to_staff (db : DB) (u : Option User)
    (staff : SchoolStaff) : Bool :=
  match u with
  | none => false
  | some user =>
    if user.is_superuser || is_admin (some user) then true
    else if (get_user_schools db (some user)).isEmpty then false
    else if (get_user_schools db (findUser db staff.user)).isEmpty then false
    else (get_user_schools db (findUser db staff.user)).any
          (fun s => (get_user_schools db (some user)).contains s)

/-- permissions.py can_view_staff: admins always; School Admins and
Teachers via the row-level school rule; everyone else never. -/
def can_view_staff (db : DB) (u : Option User) (staff : SchoolStaff) : Bool :=
  match u with
  | none => false
  | some user =>
    if user.is_superuser || is_admin (some user) then true
    else if is_school_admin (some user) || is_teacher (some user) then
      user_has_school_access_to_staff db (some user) staff
    else false

/-- permissions.py can_create_staff_membership: admins always; School
Admins unconditionally when no target school is supplied, and only for
their own active schools when one is. -/
def can_create_staff_membership (db : DB) (u : Option User)
    (target_school : Option Nat) : Bool :=
  match u with
  | none => false
  | some user =>
    if user.is_superuser || is_admin (some user) then true
    else if is_school_admin (some user) then
      match target_school with
      | none => true
      | some school => (get_user_schools db (some user)).contains school
    else false

/-! ## Group-assignment forms (core/forms.py) -/

/-- forms.py SchoolStaffEditForm.__init__: can_assign_admins flag. -/
def schoolStaffEditForm_can_assign_admins (u : Option User) : Bool :=
  match u with
  | none => false
  | some user => user.is_superuser || is_admins_group (some user)

/-- forms.py SchoolStaffEditForm.__init__: the school_groups name list. -/
def schoolStaffEditForm_group_names (u : Option User) : List String :=
  if schoolStaffEditForm_can_assign_admins u then
    ["Admins", "School Admins", "School Staff", "Teachers"]
  else
    ["School Admins", "School Staff", "Teachers"]

/-- forms.py AssignSchoolStaffForm.__init__: the school_groups name
list (driven by can_assign_admins_group). -/
def assignSchoolStaffForm_group_names (u : Option User) : List String :=
  if (match u with | none => false | some _ => can_assign_admins_group u) then
    ["Admins", "School Admins", "School Staff", "Teachers"]
  else
    ["School Admins", "School Staff", "Teachers"]

/-- forms.py AssignSystemUserForm.__init__: the system_groups name list
(driven by can_assign_admins_group). -/
def assignSystemUserForm_group_names (u : Option User) : List String :=
  if (match u with | none => false | some _ => can_assign_admins_group u) then
    ["Admins", "System Admins", "System Staff"]
  else
    ["System Admins", "System Staff"]

/-- forms.py SystemUserEditForm.__init__: the system_groups name list. -/
def systemUserEditForm_group_names (u : Option User) : List String :=
  if (match u with
      | none => false
      | some user => user.is_superuser || is_admins_group (some user)) then
    ["Admins", "System Admins", "System Staff"]
  else
    ["System Admins", "System Staff"]

/-- The selectable queryset of a group-assignment form:
Group.objects.filter(name__in=names). -/
def selectable_groups (db : DB) (names : List String) : List String :=
  db.groups.filter (fun g => names.contains g)

/-! ## Pending-user reconciler (core/views.py pending_users_list) -/

/-- views.py pending_users_list: the user ids with a TeacherRegistration
in an "active" status (draft, submitted, under_review, rejected). -/
def users_with_active_registration (db : DB) : List Nat :=
  (db.registrations.filter (fun r =>
      r.status = .draft ∨ r.status = .submitted
        ∨ r.status = .under_review ∨ r.status = .rejected)).map
    (fun r => r.user)

/-- views.py pending_users_list: users with neither profile, not
superusers, excluding those with an active registration.  (The source
applies no is_active filter.) -/
def pending_users_qs (db : DB) : List User :=
  db.users.filter (fun u =>
    !db.school_staff.any (fun s => s.user == u.id)
      && !db.system_users.any (fun s => s.user == u.id)
      && !u.is_superuser
      && !(users_with_active_registration db).contains u.id)

/-- The pending-user set as the specification sentence words it: all
ACTIVE, non-superuser users lacking both profile types, minus those with
an active registration.  Kept separate from `pending_users_qs` (which is
the source translation) so the two can be compared. -/
def pending_users_claimed (db : DB) : List User :=
  db.users.filter (fun u =>
    u.is_active
      && !db.school_staff.any (fun s => s.user == u.id)
      && !db.system_users.any (fun s => s.user == u.id)
      && !u.is_superuser
      && !(users_with_active_registration db).contains u.id)

/-! ## Registration state machine (teacher_registration/models.py) -/

/-- Look a registration up by primary key. -/
def findRegistration (db : DB) (pk : Nat) : Option TeacherRegistration :=
  db.registrations.find? (fun r => r.id == pk)

/-- Persist a modified registration row (Model.save: replace the row with
the same primary key). -/
def saveRegistration (db : DB) (r : TeacherRegistration) : DB :=
  { db with registrations :=
      db.registrations.map (fun x => if x.id == r.id then r else x) }

/-- RegistrationChangeLog.log_change: append one audit row. -/
def log_change (db : DB) (registration : Nat) (field_name old_value new_value : String)
    (changed_by : Option Nat) (notes : String) : DB :=
  { db with change_logs := db.change_logs ++
      [{ registration := registration, field_name := field_name,
         old_value := if old_value.isEmpty then ("") else old_value,
         new_value := if new_value.isEmpty then ("") else new_value,
         changed_by := changed_by, notes := notes }] }

/-- TeacherRegistration.submit: only from draft; stamps submitted_at and
logs the transition.  `by_user = none` models the default `user=None`
argument, in which case the log is attributed to the applicant. -/
def submit (db : DB) (pk : Nat) (now : Nat) (by_user : Option Nat) :
    Except String DB :=
  match findRegistration db pk with
  | none => .error ("TeacherRegistration matching query does not exist")
  | some r =>
    if r.status ≠ Status.draft then
      .error ("Only draft registrations can be submitted")
    else
      let r2 := { r with status := Status.submitted, submitted_at := some now }
      let db2 := saveRegistration db r2
      .ok (log_change db2 pk ("status") (statusStr r.status) (statusStr Status.submitted)
            (some (match by_user with | some u => u | none => r.user))
            "Registration submitted for review")

/-- TeacherRegistration.start_review: only from submitted or rejected;
records the reviewer and logs "Review started" or "Re-review started". -/
def start_review (db : DB) (pk : Nat) (reviewer : Nat) : Except String DB :=
  match findRegistration db pk with
  | none => .error ("TeacherRegistration matching query does not exist")
  | some r =>
    if r.status ≠ Status.submitted ∧ r.status ≠ Status.rejected then
      .error ("Only submitted or rejected registrations can be reviewed")
    else
      let r2 := { r with status := Status.under_review, reviewed_by := some reviewer }
      let db2 := saveRegistration db r2
      .ok (log_change db2 pk ("status") (statusStr r.status) (statusStr Status.under_review)
            (some reviewer)
            (if r.status = Status.submitted then ("Review started") else ("Re-review started")))

/-- TeacherRegistration.reject: only from submitted or under_review; sets
the review fields and logs with the comment truncated to 100 characters. -/
def reject (db : DB) (pk : Nat) (reviewer now : Nat) (comments : String) :
    Except String DB :=
  match findRegistration db pk with
  | none => .error ("TeacherRegistration matching query does not exist")
  | some r =>
    if r.status ≠ Status.submitted ∧ r.status ≠ Status.under_review then
      .error ("Only submitted or under-review registrations can be rejected")
    else
      let r2 := { r with status := Status.rejected, reviewed_by := some reviewer,
                         reviewed_at := some now, reviewer_comments := comments }
      let db2 := saveRegistration db r2
      .ok (log_change db2 pk ("status") (statusStr r.status) (statusStr Status.rejected)
            (some reviewer)
            (if comments ≠ "" then ("Registration rejected. Reason: ") ++ comments.take 100
             else ("Registration rejected")))

/-! ## Approval transducer (TeacherRegistration.approve) -/

/-- A primary key strictly greater than every key in the list (the next
autoincrement value). -/
def natFresh (l : List Nat) : Nat :=
  l.foldr max 0 + 1

/-- The fresh primary key for the SchoolStaff row created by approve. -/
def freshStaffId (db : DB) : Nat :=
  natFresh (db.school_staff.map (fun s => s.id))

/-- approve step 1: the SchoolStaff row built from the registration, every
profile field copied verbatim, staff_type TEACHING_STAFF and
registration_status VALID. -/
def staffFromRegistration (sid : Nat) (r : TeacherRegistration) (reviewer : Nat) :
    SchoolStaff :=
  { id := sid, user := r.user, staff_type := "teaching",
    title := r.title, date_of_birth := r.date_of_birth, gender := r.gender,
    gender_emis := r.gender_emis, marital_status := r.marital_status,
    nationality := r.nationality, national_id_number := r.national_id_number,
    home_island := r.home_island, phone_number := r.phone_number,
    phone_home := r.phone_home, residential_address := r.residential_address,
    nearby_school := r.nearby_school, business_address := r.business_address,
    teacher_payroll_number := r.teacher_payroll_number,
    highest_qualification := r.highest_qualification,
    years_of_experience := r.years_of_experience,
    registration_status := "valid",
    created_by := some reviewer, last_updated_by := some reviewer }

/-- approve step 2: the StaffEducationRecord copy of one EducationRecord. -/
def staffEduFromEdu (sid : Nat) (e : EducationRecord) (reviewer : Nat) :
    StaffEducationRecord :=
  { school_staff := sid, institution_name := e.institution_name,
    qualification := e.qualification, program_name := e.program_name,
    major := e.major, minor := e.minor, completion_year := e.completion_year,
    duration := e.duration, duration_unit := e.duration_unit,
    completed := e.completed, percentage_progress := e.percentage_progress,
    comment := e.comment, created_by := some reviewer,
    last_updated_by := some reviewer }

/-- approve step 3: the StaffTrainingRecord copy of one TrainingRecord. -/
def staffTrainFromTrain (sid : Nat) (t : TrainingRecord) (reviewer : Nat) :
    StaffTrainingRecord :=
  { school_staff := sid, provider_institution := t.provider_institution,
    title := t.title, focus := t.focus, format := t.format,
    completion_year := t.completion_year, duration := t.duration,
    duration_unit := t.duration_unit, effective_date := t.effective_date,
    expiration_date := t.expiration_date, created_by := some reviewer,
    last_updated_by := some reviewer }

/-- approve step 4, one iteration: SchoolStaffAssignment.objects.create
for one ClaimedSchoolAppointment, end_date left null.  The storage layer
rejects a duplicate (school_staff, school, start_date, end_date) via the
unique constraint on the model. -/
def create_assignment (db : DB) (sid : Nat) (app : ClaimedSchoolAppointment)
    (reviewer : Nat) : Except String DB :=
  if db.assignments.any (fun a =>
      a.school_staff == sid && a.school == app.current_school
        && a.start_date == app.start_date && a.end_date == none) then
    .error ("UNIQUE constraint failed: core_schoolstaffassignment")
  else
    .ok { db with assignments := db.assignments ++
      [{ school_staff := sid, school := app.current_school,
         job_title := app.employment_position, start_date := app.start_date,
         end_date := none, created_by := some reviewer,
         last_updated_by := some reviewer }] }

/-- approve step 4: the loop over claimed appointments.  On failure the
error carries the state written so far (the autocommit view of the
sequence). -/
def assignments_from_claims (db : DB) (sid reviewer : Nat) :
    List ClaimedSchoolAppointment → Except (String × DB) DB
  | [] => .ok db
  | app :: rest =>
    match create_assignment db sid app reviewer with
    | .error e => .error (e, db)
    | .ok db2 => assignments_from_claims db2 sid reviewer rest

/-- approve step 5: the single UPDATE that re-owns every document of the
registration (registration FK cleared and school_staff FK set in the same
statement). -/
def docSwap (pk sid : Nat) (d : RegistrationDocument) : RegistrationDocument :=
  if d.registration == some pk then
    { d with school_staff := some sid, registration := none }
  else d

/-- TeacherRegistration.approve, as the source sequences it: guard, then
steps 1-7 writing one after the other.  A failure returns the error
message together with the state already written at that point (what plain
autocommit execution would leave behind). -/
def approve_steps (db : DB) (pk reviewer now : Nat) (comments : String) :
    Except (String × DB) (DB × Nat) :=
  match findRegistration db pk with
  | none => .error ("TeacherRegistration matching query does not exist", db)
  | some r =>
    if r.status ≠ Status.submitted ∧ r.status ≠ Status.under_review then
      .error ("Only submitted or under-review registrations can be approved", db)
    else if db.school_staff.any (fun s => s.user == r.user) then
      -- SchoolStaff.objects.create violates the one-to-one user constraint
      .error ("UNIQUE constraint failed: core_schoolstaff.user_id", db)
    else
      let sid := freshStaffId db
      let db1 := { db with school_staff :=
          db.school_staff ++ [staffFromRegistration sid r reviewer] }
      let db2 := { db1 with staff_education_records :=
          db1.staff_education_records ++
            ((db1.education_records.filter (fun (e : EducationRecord) => e.registration == pk)).map
              (fun e => staffEduFromEdu sid e reviewer)) }
      let db3 := { db2 with staff_training_records :=
          db2.staff_training_records ++
            ((db2.training_records.filter (fun (t : TrainingRecord) => t.registration == pk)).map
              (fun t => staffTrainFromTrain sid t reviewer)) }
      match assignments_from_claims db3 sid reviewer
          (db3.claimed_appointments.filter (fun a => a.registration == pk)) with
      | .error (e, dbp) => .error (e, dbp)
      | .ok db4 =>
        let db5 := { db4 with documents := db4.documents.map (docSwap pk sid) }
        let r2 := { r with status := Status.approved, reviewed_by := some reviewer,
                           reviewed_at := some now, reviewer_comments := comments,
                           approved_staff_profile := some sid }
        let db6 := saveRegistration db5 r2
        let db7 := log_change db6 pk ("status") (statusStr r.status)
            (statusStr Status.approved) (some reviewer)
            ("Registration approved. SchoolStaff profile created (ID: "
              ++ toString sid ++ ")")
        .ok (db7, sid)

/-- Modelled from the spec: the single transactional boundary around the
approval transducer ("implementations must wrap this in a single
transactional boundary").  The Django settings module of the repository (where
request/transaction atomicity is configured) is not under src/, so the
boundary itself is taken from the specification: on any failure the
persisted state is the original one, nothing partial survives.  Returns
(persisted state, created staff id if any, error message if any). -/
def approve_transaction (db : DB) (pk reviewer now : Nat) (comments : String) :
    DB × Option Nat × Option String :=
  match approve_steps db pk reviewer now comments with
  | .error (e, _) => (db, none, some e)
  | .ok (db2, sid) => (db2, some sid, none)

/-! ## Documents (teacher_registration/views.py) -/

/-- The document_single_owner check constraint: exactly one of the two
owner foreign keys is non-null. -/
def singleOwner (d : RegistrationDocument) : Bool :=
  (d.registration.isSome && !d.school_staff.isSome)
    || (!d.registration.isSome && d.school_staff.isSome)

/-- views.py document_upload: ownership/admin gate, draft-only gate, then
the new document is created owned by the registration. -/
def document_upload (db : DB) (caller : Option User) (registration_pk : Nat)
    (original_filename : String) (file_size doc_link_type : Nat) :
    Except String DB :=
  match findRegistration db registration_pk with
  | none => .error ("404")
  | some r =>
    let is_owner := match caller with
      | some u => u.id == r.user
      | none => false
    if !is_owner && !can_manage_pending_users caller then
      .error ("You can only upload documents to your own registration.")
    else if r.status ≠ Status.draft then
      .error ("Documents cannot be added to this registration.")
    else
      .ok { db with documents := db.documents ++
        [{ registration := some registration_pk, school_staff := none,
           original_filename := original_filename, file_size := file_size,
           doc_link_type := doc_link_type }] }

/-- The eleven copied education fields of a StaffEducationRecord agree
with those of an EducationRecord. -/
def eduMatches (se : StaffEducationRecord) (e : EducationRecord) : Bool :=
  se.institution_name == e.institution_name
    && se.qualification == e.qualification
    && se.program_name == e.program_name
    && se.major == e.major
    && se.minor == e.minor
    && se.completion_year == e.completion_year
    && se.duration == e.duration
    && se.duration_unit == e.duration_unit
    && se.completed == e.completed
    && se.percentage_progress == e.percentage_progress
    && se.comment == e.comment

/-- Two EducationRecords agree on the eleven copied fields. -/
def eduContentEq (x e : EducationRecord) : Bool :=
  x.institution_name == e.institution_name
    && x.qualification == e.qualification
    && x.program_name == e.program_name
    && x.major == e.major
    && x.minor == e.minor
    && x.completion_year == e.completion_year
    && x.duration == e.duration
    && x.duration_unit == e.duration_unit
    && x.completed == e.completed
    && x.percentage_progress == e.percentage_progress
    && x.comment == e.comment

/-! ## Concrete sample data (used by witnesses and counterexamples) -/

/-- A sample registration row. -/
def regSample (i u : Nat) (st : Status) : TeacherRegistration :=
  { id := i, user := u, status := st, title := "Mr", date_of_birth := some 700101,
    gender := "male", gender_emis := none, marital_status := none, nationality := none,
    national_id_number := "N1", home_island := none, phone_number := "555",
    phone_home := "", residential_address := "addr", nearby_school := none,
    business_address := "", teacher_payroll_number := "PF1",
    highest_qualification := "diploma", years_of_experience := some 3,
    submitted_at := none, reviewed_by := none, reviewed_at := none,
    reviewer_comments := "", approved_staff_profile := none }

/-- A sample education record. -/
def eduSample (i rid : Nat) : EducationRecord :=
  { id := i, registration := rid, institution_name := "USP", qualification := 2,
    program_name := "BEd", major := 4, minor := none, completion_year := some 2010,
    duration := some 3, duration_unit := "years", completed := true,
    percentage_progress := none, comment := "" }

/-- A sample user row. -/
def userSample (i : Nat) (superuser active : Bool) (gs : List String) : User :=
  { id := i, is_superuser := superuser, is_active := active, groups := gs }

/-- A sample staff profile for user u. -/
def staffSample (i u : Nat) : SchoolStaff :=
  staffFromRegistration i (regSample 0 u .draft) 9

/-- A sample active assignment (end_date null). -/
def assignSample (st sc : Nat) : SchoolStaffAssignment :=
  { school_staff := st, school := sc, job_title := 5, start_date := none,
    end_date := none, created_by := none, last_updated_by := none }

/-- A sample document owned by a registration. -/
def docSample (rid : Nat) : RegistrationDocument :=
  { registration := some rid, school_staff := none,
    original_filename := "cv.pdf", file_size := 100, doc_link_type := 3 }

/-- The empty database, with the six seeded Group rows present. -/
def emptyDB : DB :=
  { users := [],
    groups := ["Admins", "School Admins", "School Staff", "Teachers",
               "System Admins", "System Staff"],
    school_staff := [], system_users := [], assignments := [],
    registrations := [], education_records := [], training_records := [],
    staff_education_records := [], staff_training_records := [],
    claimed_appointments := [], documents := [], change_logs := [] }

/-- C1 sample: a submitted registration whose applicant already owns a
SchoolStaff profile, so the first write of the approval violates the
one-to-one constraint. -/
def c1_db : DB :=
  { emptyDB with users := [userSample 1 false true []],
                 registrations := [regSample 1 1 .submitted],
                 school_staff := [staffSample 50 1] }

/-- C2 sample: an already-approved registration. -/
def c2_db : DB :=
  { emptyDB with registrations := [regSample 1 1 .approved] }

/-- C2 sample: a rejected registration. -/
def c2_db_rej : DB :=
  { emptyDB with registrations := [regSample 1 1 .rejected] }

/-- C3 sample: a submitted registration with one pending document. -/
def c3_db : DB :=
  { emptyDB with users := [userSample 1 false true []],
                 registrations := [regSample 1 1 .submitted],
                 documents := [docSample 1] }

/-- The result of approving the C3 sample. -/
def c3_res : Except (String × DB) (DB × Nat) := approve_steps c3_db 1 9 1000 ("")

/-- The database after approving the C3 sample. -/
def c3_db1 : DB := match c3_res with | .ok (d, _) => d | .error (_, d) => d

/-- The staff id created by approving the C3 sample. -/
def c3_sid : Nat := match c3_res with | .ok (_, s) => s | .error _ => 0

/-- C4 sample: a submitted registration carrying two education records
with identical field values (only their primary keys differ). -/
def c4_db : DB :=
  { emptyDB with registrations := [regSample 1 1 .submitted],
                 education_records := [eduSample 1 1, eduSample 2 1] }

/-- The result of approving the C4 sample. -/
def c4_res : Except (String × DB) (DB × Nat) := approve_steps c4_db 1 9 1000 ("")

/-- The database after approving the C4 sample. -/
def c4_db1 : DB := match c4_res with | .ok (d, _) => d | .error (_, d) => d

/-- The staff id created by approving the C4 sample. -/
def c4_sid : Nat := match c4_res with | .ok (_, s) => s | .error _ => 0

/-- C5 sample: an INACTIVE user with no profile and no registration. -/
def c5_user : User := userSample 1 false false []

/-- C5 sample database. -/
def c5_db : DB := { emptyDB with users := [c5_user] }

/-- C6 sample: a School Admin (user 2) sharing school 11 with the target
staff member (user 1). -/
def c6_admin : User := userSample 2 false true ["School Admins"]

/-- C6 sample target staff profile. -/
def c6_staff : SchoolStaff := staffSample 50 1

/-- C6 sample database. -/
def c6_db : DB :=
  { emptyDB with users := [userSample 1 false true [], c6_admin],
                 school_staff := [c6_staff, staffSample 51 2],
                 assignments := [assignSample 51 11, assignSample 50 11] }

/-- C7 sample: a user whose only admin-granting group is System Admins. -/
def c7_user : User := userSample 3 false true ["System Admins"]

/-- C8 sample: a profiled, grouped, non-superuser user. -/
def c8_user : User := userSample 2 false true ["School Admins"]

/-- C8 sample database: user 2 owns a SchoolStaff profile. -/
def c8_db : DB := { emptyDB with school_staff := [staffSample 51 2] }

/-- C9 sample: an authenticated user in NO group at all. -/
def c9_user : User := userSample 2 false true []

/-- C9 sample database: groupless user 2 shares school 11 with the
target staff member (user 1). -/
def c9_db : DB :=
  { emptyDB with users := [userSample 1 false true [], c9_user],
                 school_staff := [c6_staff, staffSample 51 2],
                 assignments := [assignSample 51 11, assignSample 50 11] }

/-- C10 sample: a School Admin active at school 11 only. -/
def c10_user : User := userSample 2 false true ["School Admins"]

/-- C10 sample database. -/
def c10_db : DB :=
  { emptyDB with users := [c10_user],
                 school_staff := [staffSample 51 2],
                 assignments := [assignSample 51 11] }

/-! ## Helper lemmas -/

/-- A non-superuser outside Admins and System Admins is not is_admin. -/
lemma is_admin_false (u : User) (hsup : u.is_superuser = false)
    (hadm : u.groups.contains GROUP_ADMINS = false)
    (hsys : u.groups.contains GROUP_SYSTEM_ADMINS = false) :
    is_admin (some u) = false := by
  have hadm2 : GROUP_ADMINS ∉ u.groups := by simpa using hadm
  have hsys2 : GROUP_SYSTEM_ADMINS ∉ u.groups := by simpa using hsys
  simp [is_admin, in_group, hsup, hadm2, hsys2]

/-- An inhabited active-school queryset implies the user has a staff
profile row. -/
lemma qsSchools_staff_exists (db : DB) (uid sc : Nat) (h : sc ∈ qsSchools db uid) :
    db.school_staff.any (fun s => s.user == uid) = true := by
  unfold qsSchools at h
  rw [List.mem_dedup] at h
  obtain ⟨a, ha, _⟩ := List.mem_map.mp h
  have hp := (List.mem_filter.mp ha).2
  have h1 := (Bool.and_eq_true _ _ |>.mp hp).1
  obtain ⟨s, hs, hpred⟩ := List.any_eq_true.mp h1
  exact List.any_eq_true.mpr ⟨s, hs, (Bool.and_eq_true _ _ |>.mp hpred).2⟩

/-- get_user_schools on a stored user, with the hasattr guard exposed. -/
lemma get_user_schools_some (db : DB) (u : User) :
    get_user_schools db (some u) =
      if db.school_staff.any (fun s => s.user == u.id) = true then qsSchools db u.id
      else [] := by
  unfold get_user_schools
  by_cases h : db.school_staff.any (fun s => s.user == u.id) = true <;> simp [h]

/-- Row-level school rule, for any non-admin caller: access is granted
exactly when the active-school sets of caller and target meet.  This
is the shared core behind claims C6 and C9. -/
lemma school_access_iff (db : DB) (u : User) (s : SchoolStaff) (su : User)
    (hsup : u.is_superuser = false)
    (hadm : u.groups.contains GROUP_ADMINS = false)
    (hsys : u.groups.contains GROUP_SYSTEM_ADMINS = false)
    (hsu : findUser db s.user = some su) :
    (user_has_school_access_to_staff db (some u) s = true ↔
      ∃ sc, sc ∈ qsSchools db u.id ∧ sc ∈ qsSchools db s.user) := by
  have hadmF := is_admin_false u hsup hadm hsys
  have hsuid : su.id = s.user := by simpa using List.find?_some hsu
  unfold user_has_school_access_to_staff
  rw [hsu]
  dsimp only
  rw [get_user_schools_some db u, get_user_schools_some db su, hsuid]
  simp only [hsup, hadmF, Bool.or_self, if_false, Bool.false_eq_true]
  by_cases hg1 : db.school_staff.any (fun s2 => s2.user == u.id) = true
  · rw [if_pos hg1]
    by_cases hg2 : db.school_staff.any (fun s2 => s2.user == s.user) = true
    · rw [if_pos hg2]
      by_cases he1 : (qsSchools db u.id).isEmpty = true
      · have h0 : qsSchools db u.id = [] := List.isEmpty_iff.mp he1
        simp [he1, h0]
      · by_cases he2 : (qsSchools db s.user).isEmpty = true
        · have h0 : qsSchools db s.user = [] := List.isEmpty_iff.mp he2
          simp [he1, he2, h0]
        · simp only [he1, he2, if_false, Bool.false_eq_true, List.any_eq_true]
          constructor
          · rintro ⟨x, hx1, hx2⟩
            exact ⟨x, by simpa using hx2, hx1⟩
          · rintro ⟨x, hx1, hx2⟩
            exact ⟨x, hx2, by simpa using hx1⟩
    · rw [if_neg hg2]
      constructor
      · intro hfalse
        exfalso
        by_cases he1 : (qsSchools db u.id).isEmpty = true <;>
          simp [he1] at hfalse
      · rintro ⟨sc, _, hsc2⟩
        exact absurd (qsSchools_staff_exists db s.user sc hsc2) hg2
  · rw [if_neg hg1]
    constructor
    · intro hfalse
      simp at hfalse
    · rintro ⟨sc, hsc1, _⟩
      exact absurd (qsSchools_staff_exists db u.id sc hsc1) hg1

/-! ## Approval transducer lemmas -/

/-- Every member is bounded by the foldr max. -/
lemma mem_le_foldr_max (x : Nat) : ∀ l : List Nat, x ∈ l → x ≤ l.foldr max 0
  | a :: t, h => by
    rcases List.mem_cons.mp h with h | h
    · subst h
      exact Nat.le_max_left _ _
    · exact Nat.le_trans (mem_le_foldr_max x t h) (Nat.le_max_right _ _)

/-- The fresh staff id collides with no existing staff row. -/
lemma freshStaffId_not_staff (db : DB) (s : SchoolStaff)
    (hs : s ∈ db.school_staff) : s.id ≠ freshStaffId db := by
  intro h
  have hle := mem_le_foldr_max s.id (db.school_staff.map (fun x => x.id))
    (List.mem_map_of_mem _ hs)
  unfold freshStaffId natFresh at h
  omega

/-- A successful single-assignment create only appends to assignments. -/
lemma create_assignment_frame (db : DB) (sid : Nat)
    (app : ClaimedSchoolAppointment) (reviewer : Nat) (dbx : DB)
    (h : create_assignment db sid app reviewer = .ok dbx) :
    dbx = { db with assignments := dbx.assignments } := by
  unfold create_assignment at h
  split at h
  · exact Except.noConfusion h
  · cases h
    rfl

/-- A successful assignment-derivation loop only changes assignments. -/
lemma assignments_from_claims_frame (sid reviewer : Nat) :
    ∀ (apps : List ClaimedSchoolAppointment) (db db2 : DB),
      assignments_from_claims db sid reviewer apps = .ok db2 →
      db2 = { db with assignments := db2.assignments }
  | [], db, db2, h => by
    unfold assignments_from_claims at h
    cases h
    rfl
  | app :: rest, db, db2, h => by
    unfold assignments_from_claims at h
    cases hc : create_assignment db sid app reviewer with
    | error e =>
      rw [hc] at h
      exact Except.noConfusion h
    | ok dbx =>
      rw [hc] at h
      have ih := assignments_from_claims_frame sid reviewer rest dbx db2 h
      have hx := create_assignment_frame db sid app reviewer dbx hc
      rw [ih, hx]

/-- find? after the save-by-id replacement returns the replacement. -/
lemma find?_replace_id (pk : Nat) (r2 : TeacherRegistration) (h2 : r2.id = pk) :
    ∀ (l : List TeacherRegistration) (r : TeacherRegistration),
      l.find? (fun x => x.id == pk) = some r →
      (l.map (fun x => if x.id == r2.id then r2 else x)).find?
          (fun x => x.id == pk) = some r2
  | [], r, h => by simp at h
  | a :: t, r, h => by
    by_cases ha : a.id = pk
    · have hif : (if a.id == r2.id then r2 else a) = r2 := by
        rw [if_pos]
        simp [ha, h2]
      rw [List.map_cons, hif, List.find?_cons_of_pos _ (by simp [h2])]
    · have hif : (if a.id == r2.id then r2 else a) = a := by
        rw [if_neg]
        simp [ha, h2]
      rw [List.find?_cons_of_neg _ (by simpa using ha)] at h
      rw [List.map_cons, hif, List.find?_cons_of_neg _ (by simpa using ha)]
      exact find?_replace_id pk r2 h2 t r h

/-- A successful approve: structure of the resulting state.  All claims
about the success path read off this description. -/
lemma approve_steps_ok_spec (db : DB) (pk reviewer now : Nat) (comments : String)
    (db1 : DB) (sid : Nat)
    (hok : approve_steps db pk reviewer now comments = .ok (db1, sid)) :
    ∃ r, findRegistration db pk = some r
      ∧ (r.status = .submitted ∨ r.status = .under_review)
      ∧ sid = freshStaffId db
      ∧ db1.school_staff = db.school_staff ++ [staffFromRegistration sid r reviewer]
      ∧ db1.staff_education_records = db.staff_education_records
          ++ ((db.education_records.filter (fun e => e.registration == pk)).map
                (fun e => staffEduFromEdu sid e reviewer))
      ∧ db1.education_records = db.education_records
      ∧ db1.documents = db.documents.map (docSwap pk sid)
      ∧ findRegistration db1 pk = some { r with
            status := Status.approved,
            reviewed_by := some reviewer, reviewed_at := some now,
            reviewer_comments := comments, approved_staff_profile := some sid } := by
  unfold approve_steps at hok
  cases hfind : findRegistration db pk with
  | none =>
    rw [hfind] at hok
    exact Except.noConfusion hok
  | some r =>
    rw [hfind] at hok
    dsimp only at hok
    refine ⟨r, rfl, ?_⟩
    split at hok
    · exact Except.noConfusion hok
    rename_i hg
    have hstat : r.status = .submitted ∨ r.status = .under_review := by
      rcases not_and_or.mp hg with h | h
      · exact Or.inl (not_not.mp h)
      · exact Or.inr (not_not.mp h)
    refine ⟨hstat, ?_⟩
    split at hok
    · exact Except.noConfusion hok
    rename_i hstaff
    split at hok
    · exact Except.noConfusion hok
    rename_i db4 heq
    simp only [Except.ok.injEq, Prod.mk.injEq] at hok
    obtain ⟨hdb, hsid⟩ := hok
    subst hsid
    subst hdb
    have hrid : r.id = pk := by
      have := List.find?_some hfind
      simpa using this
    have hframe := assignments_from_claims_frame (freshStaffId db) reviewer _ _ db4 heq
    have hregs4 : db4.registrations = db.registrations := by rw [hframe]
    have hdocs4 : db4.documents = db.documents := by rw [hframe]
    have hstaff4 : db4.school_staff
        = db.school_staff ++ [staffFromRegistration (freshStaffId db) r reviewer] := by
      rw [hframe]
    have hsed4 : db4.staff_education_records = db.staff_education_records
        ++ ((db.education_records.filter (fun e => e.registration == pk)).map
              (fun e => staffEduFromEdu (freshStaffId db) e reviewer)) := by
      rw [hframe]
    have hedu4 : db4.education_records = db.education_records := by rw [hframe]
    refine ⟨rfl, ?_, ?_, ?_, ?_, ?_⟩
    · simpa [log_change, saveRegistration] using hstaff4
    · simpa [log_change, saveRegistration] using hsed4
    · simpa [log_change, saveRegistration] using hedu4
    · simp [log_change, saveRegistration, hdocs4]
    · simp only [findRegistration, log_change, saveRegistration]
      dsimp only
      rw [hregs4]
      exact find?_replace_id pk { r with
          status := Status.approved, reviewed_by := some reviewer,
          reviewed_at := some now, reviewer_comments := comments,
          approved_staff_profile := some (freshStaffId db) }
        hrid db.registrations r hfind

/-- submit raises when the registration is not a draft. -/
lemma submit_guard_error (db : DB) (pk now : Nat) (by_user : Option Nat)
    (r : TeacherRegistration) (hr : findRegistration db pk = some r)
    (h : r.status ≠ Status.draft) :
    submit db pk now by_user = .error ("Only draft registrations can be submitted") := by
  unfold submit
  rw [hr]
  dsimp only
  rw [if_pos h]

/-- start_review raises when the registration is neither submitted nor
rejected. -/
lemma start_review_guard_error (db : DB) (pk reviewer : Nat)
    (r : TeacherRegistration) (hr : findRegistration db pk = some r)
    (h1 : r.status ≠ Status.submitted) (h2 : r.status ≠ Status.rejected) :
    start_review db pk reviewer =
      .error ("Only submitted or rejected registrations can be reviewed") := by
  unfold start_review
  rw [hr]
  dsimp only
  rw [if_pos ⟨h1, h2⟩]

/-- start_review succeeds from submitted or rejected. -/
lemma start_review_ok (db : DB) (pk reviewer : Nat)
    (r : TeacherRegistration) (hr : findRegistration db pk = some r)
    (h : r.status = Status.submitted ∨ r.status = Status.rejected) :
    ∃ db2, start_review db pk reviewer = .ok db2 := by
  unfold start_review
  rw [hr]
  dsimp only
  rw [if_neg (by rcases h with h | h <;> simp [h])]
  exact ⟨_, rfl⟩

/-- reject raises when the registration is neither submitted nor under
review. -/
lemma reject_guard_error (db : DB) (pk reviewer now : Nat) (comments : String)
    (r : TeacherRegistration) (hr : findRegistration db pk = some r)
    (h1 : r.status ≠ Status.submitted) (h2 : r.status ≠ Status.under_review) :
    reject db pk reviewer now comments =
      .error ("Only submitted or under-review registrations can be rejected") := by
  unfold reject
  rw [hr]
  dsimp only
  rw [if_pos ⟨h1, h2⟩]

/-- The approval transducer raises at its guard (and the persisted state
is the original) when the registration is neither submitted nor under
review. -/
lemma approve_transaction_guard_error (db : DB) (pk reviewer now : Nat)
    (comments : String) (r : TeacherRegistration)
    (hr : findRegistration db pk = some r)
    (h1 : r.status ≠ Status.submitted) (h2 : r.status ≠ Status.under_review) :
    approve_transaction db pk reviewer now comments =
      (db, none, some ("Only submitted or under-review registrations can be approved")) := by
  unfold approve_transaction approve_steps
  rw [hr]
  dsimp only
  rw [if_pos ⟨h1, h2⟩]

/-! ## Claim C1 -/

/-- Claim C1 (reason spec-modelled: the transaction boundary is taken
from the specification because the settings module of the repository is not
under src/): for a registration in {submitted, under_review}, if any
approval step fails, the whole operation rolls back — the persisted state
is the original database, no staff id is returned, and in particular no
SchoolStaff row is left behind. -/
theorem c1_approve_rollback (db : DB) (pk reviewer now : Nat) (comments : String)
    (r : TeacherRegistration) (_hr : findRegistration db pk = some r)
    (_hs : r.status = Status.submitted ∨ r.status = Status.under_review)
    (e : String) (dbp : DB)
    (hfail : approve_steps db pk reviewer now comments = .error (e, dbp)) :
    approve_transaction db pk reviewer now comments = (db, none, some e)
    ∧ (approve_transaction db pk reviewer now comments).1 = db
    ∧ ((approve_transaction db pk reviewer now comments).1).school_staff
        = db.school_staff
    ∧ (approve_transaction db pk reviewer now comments).2.1 = none := by
  unfold approve_transaction
  rw [hfail]
  exact ⟨rfl, rfl, rfl, rfl⟩

/-- Witness for C1: a submitted registration whose applicant already owns
a SchoolStaff profile makes step 1 fail; the transaction leaves the
database untouched. -/
theorem c1_witness :
    approve_steps c1_db 1 9 1000 ("x") =
      .error ("UNIQUE constraint failed: core_schoolstaff.user_id", c1_db)
    ∧ approve_transaction c1_db 1 9 1000 ("x") =
      (c1_db, none, some ("UNIQUE constraint failed: core_schoolstaff.user_id")) := by
  have hfail : approve_steps c1_db 1 9 1000 ("x") =
      .error ("UNIQUE constraint failed: core_schoolstaff.user_id", c1_db) := by rfl
  exact ⟨hfail, (c1_approve_rollback c1_db 1 9 1000 ("x") (regSample 1 1 .submitted)
    (by rfl) (Or.inl rfl) _ _ hfail).1⟩

/-! ## Claim C2 -/

/-- Claim C2: approved is terminal — on an approved registration every
transition method raises (submit, start_review, approve, reject), so a
second approve in particular raises and creates no second SchoolStaff;
from rejected the only available transition is start_review. -/
theorem c2_approved_terminal (db : DB) (pk now by_user reviewer : Nat)
    (comments : String) (r : TeacherRegistration)
    (hr : findRegistration db pk = some r) :
    (r.status = Status.approved →
        submit db pk now (some by_user) =
          .error ("Only draft registrations can be submitted")
      ∧ start_review db pk reviewer =
          .error ("Only submitted or rejected registrations can be reviewed")
      ∧ approve_transaction db pk reviewer now comments =
          (db, none, some ("Only submitted or under-review registrations can be approved"))
      ∧ reject db pk reviewer now comments =
          .error ("Only submitted or under-review registrations can be rejected"))
    ∧ (r.status = Status.rejected →
        (∃ db2, start_review db pk reviewer = .ok db2)
      ∧ submit db pk now (some by_user) =
          .error ("Only draft registrations can be submitted")
      ∧ approve_transaction db pk reviewer now comments =
          (db, none, some ("Only submitted or under-review registrations can be approved"))
      ∧ reject db pk reviewer now comments =
          .error ("Only submitted or under-review registrations can be rejected"))
    ∧ (∀ db1 sid, approve_steps db pk reviewer now comments = .ok (db1, sid) →
        approve_transaction db1 pk reviewer now comments =
          (db1, none, some ("Only submitted or under-review registrations can be approved"))
      ∧ ((approve_transaction db1 pk reviewer now comments).1).school_staff
          = db1.school_staff) := by
  refine ⟨?_, ?_, ?_⟩
  · intro h
    exact ⟨submit_guard_error db pk now (some by_user) r hr (by rw [h]; simp),
      start_review_guard_error db pk reviewer r hr (by rw [h]; simp) (by rw [h]; simp),
      approve_transaction_guard_error db pk reviewer now comments r hr
        (by rw [h]; simp) (by rw [h]; simp),
      reject_guard_error db pk reviewer now comments r hr
        (by rw [h]; simp) (by rw [h]; simp)⟩
  · intro h
    exact ⟨start_review_ok db pk reviewer r hr (Or.inr h),
      submit_guard_error db pk now (some by_user) r hr (by rw [h]; simp),
      approve_transaction_guard_error db pk reviewer now comments r hr
        (by rw [h]; simp) (by rw [h]; simp),
      reject_guard_error db pk reviewer now comments r hr
        (by rw [h]; simp) (by rw [h]; simp)⟩
  · intro db1 sid hok
    obtain ⟨r0, -, -, -, -, -, -, -, hfind1⟩ :=
      approve_steps_ok_spec db pk reviewer now comments db1 sid hok
    have hterm := approve_transaction_guard_error db1 pk reviewer now comments _
      hfind1 (by simp) (by simp)
    exact ⟨hterm, by rw [hterm]⟩

/-- Witness for C2 at an approved and at a rejected registration. -/
theorem c2_witness :
    submit c2_db 1 5 (some 9) = .error ("Only draft registrations can be submitted")
    ∧ approve_transaction c2_db 1 9 5 ("") =
        (c2_db, none, some ("Only submitted or under-review registrations can be approved"))
    ∧ (∃ db2, start_review c2_db_rej 1 9 = .ok db2)
    ∧ reject c2_db_rej 1 9 5 ("no") =
        .error ("Only submitted or under-review registrations can be rejected") := by
  have h1 := c2_approved_terminal c2_db 1 5 9 9 ("") (regSample 1 1 .approved) (by rfl)
  have h2 := c2_approved_terminal c2_db_rej 1 5 9 9 ("no") (regSample 1 1 .rejected) (by rfl)
  exact ⟨(h1.1 rfl).1, (h1.1 rfl).2.2.1, (h2.2.1 rfl).1, (h2.2.1 rfl).2.2.2⟩

/-- The ownership swap preserves the single-owner constraint. -/
lemma singleOwner_docSwap (pk sid : Nat) (d : RegistrationDocument)
    (h : singleOwner d = true) : singleOwner (docSwap pk sid d) = true := by
  unfold docSwap
  split
  · simp [singleOwner]
  · exact h

/-! ## Claim C3 -/

/-- Claim C3: every RegistrationDocument has exactly one owner — the
constraint is preserved by the approval step (whose single UPDATE clears
the registration FK and sets the school_staff FK together, so no document
is ever transiently both-null or both-set), documents of the approved
registration end up owned by the new SchoolStaff with null registration,
and documents are created (upload view) with exactly one owner. -/
theorem c3_document_exclusive_owner (db : DB) (pk reviewer now : Nat)
    (comments : String) (db1 : DB) (sid : Nat)
    (hok : approve_steps db pk reviewer now comments = .ok (db1, sid))
    (hinv : ∀ d ∈ db.documents, singleOwner d = true) :
    (∀ d ∈ db1.documents, singleOwner d = true)
    ∧ (∀ d ∈ db.documents, d.registration = some pk →
        docSwap pk sid d ∈ db1.documents
        ∧ (docSwap pk sid d).registration = none
        ∧ (docSwap pk sid d).school_staff = some sid)
    ∧ (∀ caller fn sz lt db2, document_upload db caller pk fn sz lt = .ok db2 →
        ∀ d ∈ db2.documents, singleOwner d = true) := by
  obtain ⟨r0, -, -, -, -, -, -, hdocs, -⟩ :=
    approve_steps_ok_spec db pk reviewer now comments db1 sid hok
  refine ⟨?_, ?_, ?_⟩
  · intro d hd
    rw [hdocs] at hd
    obtain ⟨d0, hd0, hmap⟩ := List.mem_map.mp hd
    rw [← hmap]
    exact singleOwner_docSwap pk sid d0 (hinv d0 hd0)
  · intro d hd hreg
    refine ⟨by rw [hdocs]; exact List.mem_map_of_mem _ hd, ?_, ?_⟩
    · simp [docSwap, hreg]
    · simp [docSwap, hreg]
  · intro caller fn sz lt db2 hup d hd
    unfold document_upload at hup
    cases hf : findRegistration db pk with
    | none =>
      rw [hf] at hup
      exact Except.noConfusion hup
    | some r =>
      rw [hf] at hup
      dsimp only at hup
      split at hup
      · exact Except.noConfusion hup
      split at hup
      · exact Except.noConfusion hup
      cases hup
      rcases List.mem_append.mp hd with h | h
      · exact hinv d h
      · rcases List.mem_singleton.mp h with rfl
        rfl

/-- Witness for C3 at the sample database: the pending document moves to
the freshly created staff profile. -/
theorem c3_witness :
    docSwap 1 c3_sid (docSample 1) ∈ c3_db1.documents
    ∧ (docSwap 1 c3_sid (docSample 1)).registration = none
    ∧ (docSwap 1 c3_sid (docSample 1)).school_staff = some c3_sid := by
  have h := c3_document_exclusive_owner c3_db 1 9 1000 ("") c3_db1 c3_sid
    (by rfl) (by decide)
  exact h.2.1 (docSample 1) (by decide) (by rfl)

/-! ## Claim C4 -/

/-- Counterexample for C4 as stated: approving a registration that holds
two EducationRecords with identical field values yields TWO matching
StaffEducationRecords on the new staff profile, not exactly one. -/
theorem c4_counterexample :
    (approve_transaction c4_db 1 9 1000 ("")).2.2 = none
    ∧ eduSample 1 1 ∈ c4_db.education_records
    ∧ (eduSample 1 1).registration = 1
    ∧ (c4_db1.staff_education_records.filter (fun se =>
        se.school_staff == c4_sid && eduMatches se (eduSample 1 1))).length = 2 := by
  exact ⟨by rfl, by decide, rfl, by decide⟩

/-- Claim C4 amended: approval copies, not moves, education records — the
originals survive unmodified on the registration, and for every
EducationRecord e of the registration the number of StaffEducationRecords
on the returned SchoolStaff whose copied fields equal those of e is
exactly the number of EducationRecords of the registration carrying those
field values (hence exactly one whenever the field values of e are unique
within the registration). -/
theorem c4_education_copy_amended (db : DB) (pk reviewer now : Nat)
    (comments : String) (db1 : DB) (sid : Nat)
    (hok : approve_steps db pk reviewer now comments = .ok (db1, sid))
    (hfk : ∀ se ∈ db.staff_education_records,
      ∃ st ∈ db.school_staff, st.id = se.school_staff) :
    db1.education_records = db.education_records
    ∧ (∀ e ∈ db.education_records, e ∈ db1.education_records)
    ∧ ∀ e ∈ db.education_records, e.registration = pk →
        (db1.staff_education_records.filter (fun se =>
            se.school_staff == sid && eduMatches se e)).length
          = (db.education_records.filter (fun x =>
              x.registration == pk && eduContentEq x e)).length := by
  obtain ⟨r0, -, -, hsid, -, hsed, hedu, -, -⟩ :=
    approve_steps_ok_spec db pk reviewer now comments db1 sid hok
  refine ⟨hedu, fun e he => by rw [hedu]; exact he, ?_⟩
  intro e he hereg
  rw [hsed, List.filter_append, List.length_append]
  have hold : (db.staff_education_records.filter (fun se =>
      se.school_staff == sid && eduMatches se e)) = [] := by
    rw [List.filter_eq_nil_iff]
    intro se hse
    obtain ⟨st, hst, hstid⟩ := hfk se hse
    have hne : se.school_staff ≠ sid := by
      rw [hsid, ← hstid]
      exact freshStaffId_not_staff db st hst
    simp [hne]
  rw [hold]
  simp only [List.length_nil, Nat.zero_add]
  rw [← List.countP_eq_length_filter, ← List.countP_eq_length_filter,
      List.countP_map, List.countP_filter]
  apply List.countP_congr
  intro x _
  have h1 : ((staffEduFromEdu sid x reviewer).school_staff == sid) = true := by
    simp [staffEduFromEdu]
  have h2 : eduMatches (staffEduFromEdu sid x reviewer) e = eduContentEq x e := rfl
  simp only [Function.comp, h1, h2, Bool.true_and, Bool.and_eq_true]
  tauto

/-- Witness for the amended C4 at the duplicate-records database: two
matching copies, matching the two identical originals, which survive. -/
theorem c4_witness :
    c4_db1.education_records = c4_db.education_records
    ∧ (c4_db1.staff_education_records.filter (fun se =>
        se.school_staff == c4_sid && eduMatches se (eduSample 1 1))).length
      = (c4_db.education_records.filter (fun x =>
          x.registration == 1 && eduContentEq x (eduSample 1 1))).length := by
  have h := c4_education_copy_amended c4_db 1 9 1000 ("") c4_db1 c4_sid
    (by rfl) (by decide)
  exact ⟨h.1, h.2.2 (eduSample 1 1) (by decide) rfl⟩

/-! ## Claim C5 -/

/-- Counterexample for C5 as stated: an inactive user with no profile and
no registration is in the pending set computed by the code, but not in
the claimed set (which admits only active users) — so the two sets
differ. -/
theorem c5_counterexample :
    pending_users_qs c5_db ≠ pending_users_claimed c5_db
    ∧ c5_user ∈ pending_users_qs c5_db
    ∧ c5_user.is_active = false
    ∧ pending_users_claimed c5_db = [] := by
  refine ⟨by decide, by decide, rfl, by decide⟩

/-- Claim C5 amended: the pending-user set computed by the reconciler
equals exactly all non-superuser users — active or not, the code applies
no is_active filter — that have neither a SchoolStaff nor a SystemUser
profile, minus every user owning a TeacherRegistration whose status is in
{draft, submitted, under_review, rejected}. -/
theorem c5_pending_users_amended (db : DB) (u : User) (hu : u ∈ db.users) :
    u ∈ pending_users_qs db ↔
      (u.is_superuser = false
        ∧ (∀ s ∈ db.school_staff, ¬ s.user = u.id)
        ∧ (∀ s ∈ db.system_users, ¬ s.user = u.id)
        ∧ (∀ r ∈ db.registrations, r.user = u.id →
             r.status ≠ .draft ∧ r.status ≠ .submitted
               ∧ r.status ≠ .under_review ∧ r.status ≠ .rejected)) := by
  simp only [pending_users_qs, List.mem_filter, hu, true_and,
    Bool.and_eq_true, Bool.not_eq_true', List.any_eq_false, beq_iff_eq,
    users_with_active_registration, List.elem_eq_mem, List.mem_map,
    List.mem_filter, decide_eq_true_eq, decide_eq_false_iff_not]
  constructor
  · rintro ⟨⟨⟨hst, hsy⟩, hsu⟩, hreg⟩
    refine ⟨hsu, hst, hsy, ?_⟩
    intro r hr hru
    by_contra hc
    push_neg at hc
    apply hreg
    refine ⟨r, ⟨hr, ?_⟩, hru⟩
    by_cases h1 : r.status = .draft
    · exact Or.inl h1
    by_cases h2 : r.status = .submitted
    · exact Or.inr (Or.inl h2)
    by_cases h3 : r.status = .under_review
    · exact Or.inr (Or.inr (Or.inl h3))
    exact Or.inr (Or.inr (Or.inr (hc h1 h2 h3)))
  · rintro ⟨hsu, hst, hsy, hreg⟩
    refine ⟨⟨⟨hst, hsy⟩, hsu⟩, ?_⟩
    rintro ⟨r, ⟨hr, hstat⟩, hru⟩
    have h4 := hreg r hr hru
    rcases hstat with h | h | h | h
    · exact h4.1 h
    · exact h4.2.1 h
    · exact h4.2.2.1 h
    · exact h4.2.2.2 h

/-- Witness for the amended C5 at a concrete database. -/
theorem c5_witness : c5_user ∈ pending_users_qs c5_db :=
  (c5_pending_users_amended c5_db c5_user (by decide)).mpr (by decide)

/-! ## Claim C6 -/

/-- Claim C6: for a School Admin (not superuser, not Admins/System
Admins) and a SchoolStaff target, user_has_school_access_to_staff returns
True exactly when the active schools of the caller (assignments with null
end_date) intersect the active schools of the target user. -/
theorem c6_school_admin_row_access (db : DB) (u : User) (s : SchoolStaff) (su : User)
    (hsup : u.is_superuser = false)
    (hadm : u.groups.contains GROUP_ADMINS = false)
    (hsys : u.groups.contains GROUP_SYSTEM_ADMINS = false)
    (_hsa : u.groups.contains GROUP_SCHOOL_ADMINS = true)
    (hsu : findUser db s.user = some su) :
    (user_has_school_access_to_staff db (some u) s = true ↔
      ∃ sc, sc ∈ qsSchools db u.id ∧ sc ∈ qsSchools db s.user) :=
  school_access_iff db u s su hsup hadm hsys hsu

/-- Witness for C6: the sample School Admin shares school 11 with the
target staff member and is granted access. -/
theorem c6_witness :
    user_has_school_access_to_staff c6_db (some c6_admin) c6_staff = true :=
  (c6_school_admin_row_access c6_db c6_admin c6_staff (userSample 1 false true [])
      rfl (by decide) (by decide) (by decide) (by decide)).mpr
    ⟨11, by decide, by decide⟩

/-! ## Claim C9 -/

/-- Claim C9: user_has_school_access_to_staff performs no group check for
non-admin callers — even a user in no group at all is granted access
whenever the active-school sets intersect; the School-Admin/Teacher
restriction lives only in callers such as can_view_staff, which denies a
user in neither group. -/
theorem c9_access_without_group_check (db : DB) (u : User) (s : SchoolStaff) (su : User)
    (hsup : u.is_superuser = false)
    (hadm : u.groups.contains GROUP_ADMINS = false)
    (hsys : u.groups.contains GROUP_SYSTEM_ADMINS = false)
    (hsu : findUser db s.user = some su) :
    (∀ sc, sc ∈ qsSchools db u.id → sc ∈ qsSchools db s.user →
      user_has_school_access_to_staff db (some u) s = true)
    ∧ (u.groups.contains GROUP_SCHOOL_ADMINS = false →
       u.groups.contains GROUP_TEACHERS = false →
        can_view_staff db (some u) s = false) := by
  constructor
  · intro sc h1 h2
    exact (school_access_iff db u s su hsup hadm hsys hsu).mpr ⟨sc, h1, h2⟩
  · intro hnsa hnt
    have hadmF := is_admin_false u hsup hadm hsys
    have h1 : GROUP_SCHOOL_ADMINS ∉ u.groups := by simpa using hnsa
    have h2 : GROUP_TEACHERS ∉ u.groups := by simpa using hnt
    simp [can_view_staff, hsup, hadmF, is_school_admin, is_teacher, in_group, h1, h2]

/-- Witness for C9: the groupless sample user passes the row-level check
yet is denied by can_view_staff. -/
theorem c9_witness :
    user_has_school_access_to_staff c9_db (some c9_user) c6_staff = true
    ∧ can_view_staff c9_db (some c9_user) c6_staff = false := by
  have h := c9_access_without_group_check c9_db c9_user c6_staff
      (userSample 1 false true []) rfl (by decide) (by decide) (by decide)
  exact ⟨h.1 11 (by decide) (by decide), h.2 (by decide) (by decide)⟩

/-! ## Claim C7 -/

/-- Claim C7: can_assign_admins_group(user) returns True exactly for
superusers and Admins-group members (System Admins excluded); and for a
user whose only admin-granting group is System Admins, the Admins group
never appears in the selectable group set of any of the four
group-assignment forms. -/
theorem c7_admins_assignment (db : DB) (u : User) :
    (can_assign_admins_group (some u) = true ↔
      (u.is_superuser = true ∨ u.groups.contains GROUP_ADMINS = true))
    ∧ (u.is_superuser = false → u.groups.contains GROUP_ADMINS = false →
       u.groups.contains GROUP_SYSTEM_ADMINS = true →
        ("Admins" ∉ selectable_groups db (schoolStaffEditForm_group_names (some u))
        ∧ "Admins" ∉ selectable_groups db (assignSchoolStaffForm_group_names (some u))
        ∧ "Admins" ∉ selectable_groups db (assignSystemUserForm_group_names (some u))
        ∧ "Admins" ∉ selectable_groups db (systemUserEditForm_group_names (some u)))) := by
  constructor
  · by_cases hsup : u.is_superuser <;>
      simp [can_assign_admins_group, is_admins_group, in_group, hsup]
  · intro h1 h2 _h3
    have h22 : GROUP_ADMINS ∉ u.groups := by simpa using h2
    have hflag : is_admins_group (some u) = false := by
      simp [is_admins_group, in_group, h1, h22]
    have hca : can_assign_admins_group (some u) = false := by
      simp [can_assign_admins_group, h1, hflag]
    refine ⟨?_, ?_, ?_, ?_⟩ <;> intro hmem <;>
      [ simp [selectable_groups, List.mem_filter, schoolStaffEditForm_group_names,
          schoolStaffEditForm_can_assign_admins, h1, hflag] at hmem ;
        simp [selectable_groups, List.mem_filter, assignSchoolStaffForm_group_names,
          hca] at hmem ;
        simp [selectable_groups, List.mem_filter, assignSystemUserForm_group_names,
          hca] at hmem ;
        simp [selectable_groups, List.mem_filter, systemUserEditForm_group_names,
          h1, hflag] at hmem ]

/-- Witness for C7 at a System-Admins-only user. -/
theorem c7_witness :
    ("Admins" ∉ selectable_groups emptyDB (schoolStaffEditForm_group_names (some c7_user)))
    ∧ ("Admins" ∉ selectable_groups emptyDB (assignSchoolStaffForm_group_names (some c7_user)))
    ∧ ("Admins" ∉ selectable_groups emptyDB (assignSystemUserForm_group_names (some c7_user)))
    ∧ ("Admins" ∉ selectable_groups emptyDB (systemUserEditForm_group_names (some c7_user))) :=
  (c7_admins_assignment emptyDB c7_user).2 rfl (by decide) (by decide)

/-! ## Claim C8 -/

/-- Claim C8: has_app_access is true for every superuser, and for a
non-superuser it is true exactly when the user owns a profile (SchoolStaff
or SystemUser) and belongs to at least one group. -/
theorem c8_app_access (db : DB) (u : User) :
    (u.is_superuser = true → has_app_access db (some u) = true)
    ∧ (u.is_superuser = false →
        (has_app_access db (some u) = true ↔
          ((db.school_staff.any (fun s => s.user == u.id) = true
            ∨ db.system_users.any (fun s => s.user == u.id) = true)
           ∧ u.groups ≠ []))) := by
  constructor
  · intro h; simp [has_app_access, h]
  · intro h
    by_cases hp : (db.school_staff.any (fun s => s.user == u.id)
        || db.system_users.any (fun s => s.user == u.id)) = true
    · have hor := Bool.or_eq_true _ _ |>.mp hp
      simp [has_app_access, h, hp, List.isEmpty_iff]
      intro _
      simpa using hor
    · have hor := hp
      simp only [Bool.or_eq_true, not_or, Bool.not_eq_true] at hor
      simp [has_app_access, h, hor.1, hor.2]

/-- Witness for C8: a non-superuser with a profile and one group has app
access. -/
theorem c8_witness : has_app_access c8_db (some c8_user) = true :=
  ((c8_app_access c8_db c8_user).2 rfl).mpr ⟨Or.inl (by decide), by decide⟩

/-! ## Claim C10 -/

/-- Claim C10: for a School Admin (not superuser, not Admins/System
Admins), can_create_staff_membership with no target school returns True
unconditionally; with a target school it returns True exactly when the
school is one of the active schools of the caller. -/
theorem c10_create_membership (db : DB) (u : User)
    (hsup : u.is_superuser = false)
    (hadm : u.groups.contains GROUP_ADMINS = false)
    (hsys : u.groups.contains GROUP_SYSTEM_ADMINS = false)
    (hsa : u.groups.contains GROUP_SCHOOL_ADMINS = true) :
    can_create_staff_membership db (some u) none = true
    ∧ ∀ sc, (can_create_staff_membership db (some u) (some sc) = true ↔
        (get_user_schools db (some u)).contains sc = true) := by
  have hadmF := is_admin_false u hsup hadm hsys
  have hsa2 : GROUP_SCHOOL_ADMINS ∈ u.groups := by simpa using hsa
  constructor
  · simp [can_create_staff_membership, hsup, hadmF, is_school_admin, in_group, hsa2]
  · intro sc
    simp [can_create_staff_membership, hsup, hadmF, is_school_admin, in_group, hsa2]

/-- Witness for C10: the sample School Admin may attempt creation with no
target school, and may target their own school 11. -/
theorem c10_witness :
    can_create_staff_membership c10_db (some c10_user) none = true
    ∧ can_create_staff_membership c10_db (some c10_user) (some 11) = true := by
  have h := c10_create_membership c10_db c10_user rfl (by decide) (by decide) (by decide)
  exact ⟨h.1, (h.2 11).mpr (by decide)⟩

end PacEmis
